import Mathlib

/-
  Verification development for the EVM external chain-state provider
  (packages/bitcore-node, BaseEVMExternalStateProvider).

  The embedding models JavaScript numbers that the provider uses as block
  heights, limits and fee values as `Int` (all such values in this code are
  integral; fractional or exponent-form numeric strings are outside this
  integer-height model).  JavaScript truthiness on numbers (0 is falsy) is
  modelled explicitly, JS `parseInt`, `Number(...)` and `toString(10)` are
  modelled by executable string functions, and the provider's network
  collaborators (web3 node, Moralis API) are supplied as explicit
  environment records of pure oracle functions.  Fallible code returns
  `Except String` mirroring `throw new Error(...)`, and a `try/catch` that
  logs and returns `undefined` is modelled by collapsing the error case.
-/

/-- JS `a || b` on numbers: `0` is falsy, any other number is truthy. -/
def jsOrInt (a b : Int) : Int := if a = 0 then b else a

/-- JS `a || b` where `a` may be `undefined` (`none`) and `0` is falsy. -/
def jsOrOptInt (a : Option Int) (b : Int) : Int :=
  match a with
  | some x => if x = 0 then b else x
  | none => b

/-- The decimal digit character for `d` (meaningful for `d < 10`). -/
def digitChar (d : Nat) : Char := Char.ofNat (48 + d)

/-- Numeric value of a decimal digit character, `none` for a non-digit. -/
def digitVal (c : Char) : Option Nat :=
  if 48 ≤ c.toNat ∧ c.toNat ≤ 57 then some (c.toNat - 48) else none

/-- Little-endian decimal digits of `n`; `fuel ≥ n + 1` is always enough. -/
def natToRevDigits : Nat → Nat → List Char
  | 0, _ => []
  | fuel + 1, n =>
    if n < 10 then [digitChar n] else digitChar (n % 10) :: natToRevDigits fuel (n / 10)

/-- Canonical decimal print of a natural number (JS `toString(10)`). -/
def natToStr (n : Nat) : String := ⟨(natToRevDigits (n + 1) n).reverse⟩

/-- Canonical decimal print of an integer (JS `Number.prototype.toString(10)`
for the integral heights this code handles). -/
def intToStr (n : Int) : String :=
  if n < 0 then "-" ++ natToStr n.natAbs else natToStr n.toNat

/-- `s` is the canonical decimal reprint of some (integral) JS number. -/
def isCanonicalInt (s : String) : Prop := ∃ n : Int, intToStr n = s

/-- Accumulate the value of a maximal leading run of digits (JS `parseInt`
keeps parsing digits and stops at the first non-digit). -/
def leadDigitsAcc (acc : Nat) : List Char → Nat
  | [] => acc
  | c :: cs =>
    match digitVal c with
    | some d => leadDigitsAcc (acc * 10 + d) cs
    | none => acc

/-- Value of the maximal leading digit run; `none` when it is empty. -/
def leadingDigitsVal : List Char → Option Nat
  | [] => none
  | c :: cs =>
    match digitVal c with
    | some d => some (leadDigitsAcc d cs)
    | none => none

/-- JS `parseInt(s, 10)`: optional sign, then a maximal leading digit run;
`none` models `NaN`. -/
def parseIntJS (s : String) : Option Int :=
  match s.data with
  | '-' :: rest => (leadingDigitsVal rest).map (fun n => -(n : Int))
  | '+' :: rest => (leadingDigitsVal rest).map (fun n => (n : Int))
  | cs => (leadingDigitsVal cs).map (fun n => (n : Int))

/-- Accumulate digits requiring every remaining character to be a digit. -/
def fullDigitsAcc (acc : Nat) : List Char → Option Nat
  | [] => some acc
  | c :: cs =>
    match digitVal c with
    | some d => fullDigitsAcc (acc * 10 + d) cs
    | none => none

/-- Value of a non-empty all-digit character list, `none` otherwise. -/
def fullDigitsVal : List Char → Option Nat
  | [] => none
  | cs => fullDigitsAcc 0 cs

/-- JS `Number(s)` restricted to the integral numerals this code handles:
the empty string is `0`, otherwise the whole string must be an optionally
signed decimal numeral; `none` models `NaN`. -/
def numberJS (s : String) : Option Int :=
  if s = "" then some 0
  else
    match s.data with
    | '-' :: rest => (fullDigitsVal rest).map (fun n => -(n : Int))
    | '+' :: rest => (fullDigitsVal rest).map (fun n => (n : Int))
    | cs => (fullDigitsVal cs).map (fun n => (n : Int))

/-- The shape of the `sort` query argument: the code compares it with
`sort === -1` (a number), while the destructuring default is the object
`{ height: -1 }`; both shapes are representable. -/
inductive SortArg where
  | sInt (n : Int)
  | sHeight (n : Int)
deriving DecidableEq, Repr

/-- The `args` destructured by `getBlocksParams`; dates are represented by
their unix value, absent properties by `none`. -/
structure BRArgs where
  startDate : Option Int
  endDate : Option Int
  date : Option Int
  since : Option Int
  direction : Option Int
  paging : Option Int
  limit : Option Int
  sort : Option SortArg
deriving DecidableEq, Repr

/-- The parameters of `getBlocksParams` (`GetBlockParams`). -/
structure BRParams where
  chain : String
  network : String
  sinceBlock : Option String
  blockId : Option String
  args : BRArgs
deriving DecidableEq, Repr

/-- The `query` object built by `getBlocksParams`
(`ExternalGetBlockResults` plus the `block`/`height` keys it may add). -/
structure BRQuery where
  startBlock : Int
  endBlock : Int
  block : Option String
  height : Option Int
deriving DecidableEq, Repr

/-- The `options` object returned next to the query. -/
structure BROptions where
  limit : Int
  sort : SortArg
  since : Option Int
  direction : Option Int
  paging : Option Int
deriving DecidableEq, Repr

/-- A raw block as returned by `web3.eth.getBlock` (the fields this code
reads; raw web3 blocks carry `number`, not `height`, but `blockTransform`
reads `block.height` first so it is kept as an optional field). -/
structure RawBlock where
  number : Int
  height : Option Int
  hash : String
  timestamp : Int
  parentHash : String
  transactions : List String
  size : Int
  nonce : String
  difficulty : Int
  gasUsed : Int
  gasLimit : Int
  baseFeePerGas : Option Int
deriving DecidableEq, Repr

/-- The environment of network collaborators used while resolving a block
range and fetching blocks: `getBlockNumberByDate`, `getBlockNumberByBlockId`,
the local tip height (`getLocalTip`; `none` models a missing tip object) and
`web3.eth.getBlock` for the batch fetch. -/
structure NodeEnv where
  blockByDate : Int → Option Int
  blockByHash : String → Option Int
  tip : Option Int
  fetchBlock : Int → Except String RawBlock

/-- Lines 410-420: validate `blockId`.  A 64+ character identifier becomes
`query.block`; a shorter one must survive `parseInt` and reprint to itself
(`height.toString(10) !== blockId` throws); the empty string is falsy for
`if (blockId)` and is skipped.  Returns `(query.block, query.height)`. -/
def brValidateBlockId (blockId : Option String) : Except String (Option String × Option Int) :=
  match blockId with
  | none => .ok (none, none)
  | some s =>
    if s = "" then .ok (none, none)
    else if 64 ≤ s.length then .ok (some s, none)
    else
      match parseIntJS s with
      | none => .error "invalid block id provided"
      | some h => if intToStr h = s then .ok (none, some h) else .error "invalid block id provided"

/-- Lines 442-448: the `else if (query?.block)` branch — resolve the hash via
`getBlockNumberByBlockId`; a falsy result (`undefined` or `0`) throws,
otherwise it overwrites `query.height`.  Returns
`(startBlock, endBlock, query.height)`. -/
def brBlockStage (env : NodeEnv) (blk : Option String) (ht : Option Int) (sb0 eb0 : Int) :
    Except String (Int × Int × Option Int) :=
  match blk with
  | some b =>
    match env.blockByHash b with
    | none => .error ("Could not get block " ++ b)
    | some bn => if bn = 0 then .error ("Could not get block " ++ b) else .ok (sb0, eb0, some bn)
  | none => .ok (sb0, eb0, ht)

/-- Lines 435-448: the `if (sinceBlock)` branch — `Number(sinceBlock)` must
reprint to the cursor string, then `startBlock = height`,
`endBlock = height + limit`; an empty cursor string is falsy and falls
through to the `query?.block` branch. -/
def brRangeStage (env : NodeEnv) (sinceBlock : Option String) (blk : Option String)
    (ht : Option Int) (limit sb0 eb0 : Int) : Except String (Int × Int × Option Int) :=
  match sinceBlock with
  | some s =>
    if s = "" then brBlockStage env blk ht sb0 eb0
    else
      match numberJS s with
      | none => .error "invalid block id provided"
      | some h => if intToStr h = s then .ok (h, h + limit, ht) else .error "invalid block id provided"
  | none => brBlockStage env blk ht sb0 eb0

/-- Lines 450-453: `if (query?.height)` (truthy, so a height of `0` does not
trigger it) sets both bounds to that height. -/
def brHeightStep (r : Int × Int × Option Int) : Int × Int :=
  match r.2.2 with
  | some h => if h ≠ 0 then (h, h) else (r.1, r.2.1)
  | none => (r.1, r.2.1)

/-- Lines 455-461: if either bound is falsy (`0`), fetch the tip and default
`endBlock = endBlock || tipHeight`, then
`startBlock = startBlock || endBlock - 1`. -/
def brDefaultStep (env : NodeEnv) (q : Int × Int) : Int × Int :=
  if q.1 = 0 ∨ q.2 = 0 then
    let tipHeight := env.tip.getD 0
    let e := jsOrInt q.2 tipHeight
    (jsOrInt q.1 (e - 1), e)
  else q

/-- Lines 463-465: clamp `endBlock = startBlock + limit` when a positive
limit is exceeded by the span. -/
def brClamp (limit : Int) (q : Int × Int) : Int × Int :=
  if 0 < limit ∧ limit < q.2 - q.1 then (q.1, q.1 + limit) else q

/-- The height/default/clamp tail of `getBlocksParams` assembled into the
final query object. -/
def brFinalize (env : NodeEnv) (limit : Int) (blk : Option String)
    (r : Int × Int × Option Int) : BRQuery :=
  let p := brClamp limit (brDefaultStep env (brHeightStep r))
  ⟨p.1, p.2, blk, r.2.2⟩

/-- Lines 422-432: a single `date` expands to [date, date + 1 day); each
present date is then resolved via `getBlockNumberByDate` with `|| 0` applied
to the result, seeding `(query.startBlock, query.endBlock)`. -/
def brDateBounds (env : NodeEnv) (date startDate endDate : Option Int) : Int × Int :=
  let sD := if date.isSome then date else startDate
  let eD := match date with | some d => some (d + 1) | none => endDate
  (match sD with | some d => (env.blockByDate d).getD 0 | none => 0,
   match eD with | some d => (env.blockByDate d).getD 0 | none => 0)

/-- `getBlocksParams` up to (excluding) the descending swap: parameter
validation, `blockId` handling, date resolution, the since/block/height
branches, the tip default and the limit clamp (lines 401-465).  The `sort`
argument plays no part here; it is only consulted for the final swap. -/
def brCore (env : NodeEnv) (chain network : String) (sinceBlock blockId : Option String)
    (date startDate endDate : Option Int) (limit : Int) : Except String BRQuery :=
  if chain = "" ∨ network = "" then .error "Missing required chain and/or network param"
  else
    match brValidateBlockId blockId with
    | .error e => .error e
    | .ok (blk, ht) =>
      match brRangeStage env sinceBlock blk ht limit (brDateBounds env date startDate endDate).1
          (brDateBounds env date startDate endDate).2 with
      | .error e => .error e
      | .ok r => .ok (brFinalize env limit blk r)

/-- Lines 467-471: swap `startBlock` and `endBlock`. -/
def brSwap (q : BRQuery) : BRQuery :=
  { q with startBlock := q.endBlock, endBlock := q.startBlock }

/-- `getBlocksParams` (lines 401-475): destructure `limit` (default `10`) and
`sort` (default the object `{ height: -1 }`), resolve the range, then swap
the bounds only when `sort === -1` holds, i.e. when `sort` is the literal
number `-1`. -/
def getBlocksParams (env : NodeEnv) (p : BRParams) : Except String (BRQuery × BROptions) :=
  let limit := p.args.limit.getD 10
  let sort := p.args.sort.getD (SortArg.sHeight (-1))
  (brCore env p.chain p.network p.sinceBlock p.blockId p.args.date p.args.startDate
      p.args.endDate limit).map
    (fun q =>
      (if sort = SortArg.sInt (-1) then brSwap q else q,
       ⟨limit, sort, p.args.since, p.args.direction, p.args.paging⟩))

/-- `unixToDate` (utils/convert, not under src).  Modelled from the spec:
it converts a unix timestamp to a UTC date; dates are represented here by
their unix value, so the conversion is the identity. -/
def unixToDate (t : Int) : Int := t

/-- The canonical block record (`IBlock` as filled by
`ECSP.transformBlockData`, lines 497-519). -/
structure IBlockRec where
  chain : String
  network : String
  height : Int
  hash : String
  time : Int
  timeNormalized : Int
  previousBlockHash : String
  nextBlockHash : String
  transactionCount : Nat
  size : Int
  reward : Int
  processed : Bool
  nonce : String
  difficulty : Int
  gasUsed : Int
  gasLimit : Int
  baseFeePerGas : Option Int
  transactions : Option (List String)
deriving DecidableEq, Repr

/-- `static transformBlockData` (lines 497-519). -/
def transformBlockData (chain network : String) (b : RawBlock) (includeTxs : Bool) : IBlockRec :=
  { chain := chain
    network := network
    height := b.number
    hash := b.hash
    time := unixToDate b.timestamp
    timeNormalized := unixToDate b.timestamp
    previousBlockHash := b.parentHash
    nextBlockHash := ""
    transactionCount := b.transactions.length
    size := b.size
    reward := 5
    processed := true
    nonce := b.nonce
    difficulty := b.difficulty
    gasUsed := b.gasUsed
    gasLimit := b.gasLimit
    baseFeePerGas := b.baseFeePerGas
    transactions := if includeTxs then some b.transactions else none }

/-- The record produced by `getBlocks`' `blockTransform`:
`{ ...convertedBlock, confirmations }`. -/
structure ConfBlock where
  base : IBlockRec
  confirmations : Int
deriving DecidableEq, Repr

/-- `blockTransform` (lines 206-215): `blockHeight = block.height ||
block.number || 0`; whenever `blockHeight >= 0` — with no comparison against
the tip — `confirmations = tipHeight - blockHeight + 1`. -/
def blockTransform (chain network : String) (tipHeight : Int) (b : RawBlock) : ConfBlock :=
  let blockHeight := jsOrInt (jsOrOptInt b.height b.number) 0
  let confirmations := if 0 ≤ blockHeight then tipHeight - blockHeight + 1 else 0
  { base := transformBlockData chain network b false, confirmations := confirmations }

/-- lodash `_.range(start, stop)`: unit step, descending when
`stop < start`, length `max (⌈(stop - start) / step⌉) 0`. -/
def lodashRange (start stop : Int) : List Int :=
  let step : Int := if start < stop then 1 else -1
  let len : Nat := (if start < stop then stop - start else start - stop).toNat
  (List.range len).map (fun i => start + step * i)

/-- One element of the list value `getBlocks` resolves with: either a raw
block, straight from `web3.eth.getBlock`, or a transformed block with
confirmations attached. -/
inductive BlockRecordV where
  | raw (b : RawBlock)
  | canonical (c : ConfBlock)
deriving DecidableEq, Repr

/-- The value a call to `getBlocks` settles with: a resolved list of block
records, a resolved error value (from `.catch(error => error)`, which turns
a rejection into a successful value), or `undefined` from the outer
`try/catch` (line 238-241). -/
inductive GetBlocksOutcome where
  | value (v : List BlockRecordV)
  | errorValue (e : String)
  | undef
deriving DecidableEq, Repr

/-- `getBlocks` (lines 199-242).  The batch fetch is
`Promise.all(blockPromises)`; the subsequent
`.then(blockPromises.map(blockTransform) as any)` passes an ARRAY — not a
callback — to `.then`, and a non-callable `onFulfilled` is replaced by the
identity, so the transformed blocks are computed and discarded and the raw
blocks flow through; `.catch(error => error)` resolves with the error
object.  A throw during range resolution is caught, logged and `undefined`
returned. -/
def getBlocks (env : NodeEnv) (p : BRParams) : GetBlocksOutcome :=
  match getBlocksParams env p with
  | .error _ => .undef
  | .ok (q, _opts) =>
    let tipHeight := (env.tip).getD 0
    let blockNumbers := lodashRange q.startBlock (q.endBlock + 1)
    match blockNumbers.mapM env.fetchBlock with
    | .error e => .errorValue e
    | .ok raws =>
      let _discardedTransforms := raws.map (blockTransform p.chain p.network tipHeight)
      .value (raws.map BlockRecordV.raw)

/-- `_getTransaction` confirmations (lines 263-266):
`if (tx.blockNumber && tx.blockNumber >= 0)` — `tx.blockNumber` must be
truthy (present and nonzero) and nonnegative for the formula to apply. -/
def txConfirmations (tipHeight : Int) (blockNumber : Option Int) : Int :=
  match blockNumber with
  | some n => if n ≠ 0 ∧ 0 ≤ n then tipHeight - n + 1 else 0
  | none => 0

/-- A raw transaction as returned by `web3.eth.getTransaction` (the fields
this code reads). -/
structure RawTx where
  hash : String
  blockNumber : Option Int
  blockHash : Option String
  gasPrice : Int
  gas : Int
  nonce : Int
  value : Int
  toAddr : Option String
  fromAddr : Option String
  input : String
deriving DecidableEq, Repr

/-- A transaction receipt (`web3.eth.getTransactionReceipt`). -/
structure RawReceipt where
  gasUsed : Int
deriving DecidableEq, Repr

/-- Environment for `getTransaction`: the transaction and receipt lookups,
`getBlockTimestamp` keyed by the (possibly missing) block hash, and the
local tip. -/
structure TxEnv where
  getTx : String → Option RawTx
  getReceipt : String → Option RawReceipt
  blockTimestamp : Option String → Int
  tip : Option Int

/-- The caller-facing transaction record.  `EVMTransactionStorage
._apiTransform` is not under src; modelled from the spec: §4.4 maps the
enriched transaction to the canonical transaction schema, so the projection
keeps the fields of `transformTransactionData` (lines 521-540) and the
confirmations are spread on afterwards (line 276). -/
structure TxRecord where
  txid : String
  chain : String
  network : String
  blockHeight : Option Int
  blockHash : Option String
  blockTime : Option Int
  fee : Option Int
  value : Int
  gasLimit : Int
  gasPrice : Int
  nonce : Int
  toAddr : Option String
  fromAddr : Option String
  input : String
  confirmations : Int
deriving DecidableEq, Repr

/-- `_getTransaction` (lines 260-279): absent transaction yields
`undefined`; otherwise confirmations, block timestamp and (when a receipt
exists) `fee = gasUsed * gasPrice` are attached and the record is projected
to the canonical schema. -/
def getTransactionRecord (env : TxEnv) (chain network txId : String) (tipHeight : Int) :
    Option TxRecord :=
  match env.getTx txId with
  | none => none
  | some tx =>
    let confirmations := txConfirmations tipHeight tx.blockNumber
    let blockTime := env.blockTimestamp tx.blockHash
    let fee : Option Int :=
      match env.getReceipt txId with
      | some r => some (r.gasUsed * tx.gasPrice)
      | none => none
    some
      { txid := tx.hash
        chain := chain
        network := network
        blockHeight := tx.blockNumber
        blockHash := tx.blockHash
        blockTime := some blockTime
        fee := fee
        value := tx.value
        gasLimit := tx.gas
        gasPrice := tx.gasPrice
        nonce := tx.nonce
        toAddr := tx.toAddr
        fromAddr := tx.fromAddr
        input := tx.input
        confirmations := confirmations }

/-- What a call observably does in JS: settle with a value (possibly
`undefined`, i.e. `none`) or throw to the caller. -/
inductive JsCall (α : Type) where
  | returns (v : Option α)
  | throws (e : String)
deriving DecidableEq, Repr

/-- The body of `getTransaction` before the `try/catch` is applied
(lines 246-253): the validation `typeof txId !== 'string' || !chain ||
!network` throws before any network access; then the tip is fetched and
`_getTransaction` runs.  `txId = none` models a non-string `txId`. -/
def getTransactionInner (env : TxEnv) (chain network : String) (txId : Option String) :
    Except String (Option TxRecord) :=
  if txId.isNone ∨ chain = "" ∨ network = "" then .error "Missing required param"
  else
    match txId with
    | some t => .ok (getTransactionRecord env chain network t ((env.tip).getD 0))
    | none => .ok none

/-- `getTransaction` (lines 244-258): every throw of the body is caught,
logged, and `undefined` is returned to the caller (line 254-257). -/
def getTransaction (env : TxEnv) (chain network : String) (txId : Option String) :
    JsCall TxRecord :=
  match getTransactionInner env chain network txId with
  | .ok v => .returns v
  | .error _ => .returns none

/-- The quartile position computed by `getFee` (lines 178 and 192):
`let { target = 4 } = params` and
`whichQuartile = Math.min(target, 4) || 1`. -/
def getFeeWhichQuartile (target : Option Int) : Int :=
  jsOrInt (min (target.getD 4) 4) 1

/-- The quartile selection rule as the spec words it, for comparison:
"`targetBlocks` is clamped to the range [1,4]; a non-positive or missing
value defaults to 1." -/
def specTargetQuartile (target : Option Int) : Int :=
  max 1 (min (target.getD 1) 4)

/-- Environment for `getFee`: the fee history window returned by
`web3.eth.getFeeHistory` and `StatsUtil.getNthQuartileMedian` (utils/stats,
not under src) as an oracle taking the sorted samples and the quartile
position. -/
structure FeeEnv where
  baseFeePerGas : List Int
  reward : List (List Int)
  nthQuartileMedian : List Int → Int → Int

/-- `{ feerate, blocks }` returned by `getFee`. -/
structure FeeResult where
  feerate : Int
  blocks : Int
deriving DecidableEq, Repr

/-- Insert into a descending-sorted list (the BigInt comparator of
line 191 sorts descending). -/
def insertDesc (x : Int) : List Int → List Int
  | [] => [x]
  | y :: ys => if y < x then x :: y :: ys else y :: insertDesc x ys

/-- Descending sort with the comparator of line 191. -/
def sortDesc (l : List Int) : List Int := l.foldr insertDesc []

/-- Lines 183-189: `gasPrices[i] = baseFeePerGas[i] + reward[i][0]` over the
common prefix of the two arrays. -/
def feeGasPrices (env : FeeEnv) : List Int :=
  (List.range (min env.baseFeePerGas.length env.reward.length)).map
    (fun i => env.baseFeePerGas.getD i 0 + (env.reward.getD i []).getD 0 0)

/-- `getFee` (lines 177-197): samples are summed, sorted descending, the
quartile median is taken at `whichQuartile`, and `blocks` echoes the
(defaulted) target. -/
def getFee (env : FeeEnv) (target : Option Int) : FeeResult :=
  let targetV := target.getD 4
  let whichQuartile := getFeeWhichQuartile target
  let feerate := env.nthQuartileMedian (sortDesc (feeGasPrices env)) whichQuartile
  ⟨feerate, targetV⟩

/-- One pooled RPC handle (`{ rpc, web3, dataType }` plus the probe and
reconnect behaviour of its provider, abstracted to outcomes: `probeOk` is
whether `web3.eth.getBlockNumber` settles successfully before the 5000 ms
timeout rejects, `hasDisconnect` whether the current provider exposes a
`disconnect` function, and `connectedAfterReconnect` whether it reports
`connected` after `disconnect(); connect()`). -/
structure RpcHandle where
  tag : Nat
  dataType : String
  probeOk : Bool
  hasDisconnect : Bool
  connectedAfterReconnect : Bool
deriving DecidableEq, Repr

/-- `isValidProviderType` (./provider, not under src).  Modelled from the
spec: a handle tagged `combined` satisfies every capability request, a
handle tagged for one capability satisfies only that capability, and a
request with no required type accepts any handle. -/
def isValidProviderType (requested : Option String) (dataType : String) : Bool :=
  match requested with
  | none => true
  | some t => dataType = "combined" || dataType = t

/-- The outcome of `getWeb3`: an existing (possibly just reconnected) pool
handle, or a freshly created connection. -/
inductive GetW3Result where
  | existing (r : RpcHandle)
  | created (r : RpcHandle)
deriving DecidableEq, Repr

/-- The `for (const rpc of rpcs)` loop of `getWeb3` (lines 124-147) with JS
array-iterator semantics: the iterator advances by index over the live
array, so `splice`-ing the current element out shifts the remaining
elements left and the next index skips one element.  Returns the handle
returned inside the loop (if any) and the resulting pool.  The fuel
`pool.length + 1` at entry is always sufficient because the index grows by
one per step while the length never grows. -/
def getWeb3Go : Nat → List RpcHandle → Nat → Option String → Option RpcHandle × List RpcHandle
  | 0, pool, _, _ => (none, pool)
  | fuel + 1, pool, i, reqType =>
    if h : i < pool.length then
      let rpc := pool.get ⟨i, h⟩
      if ¬ isValidProviderType reqType rpc.dataType then
        getWeb3Go fuel pool (i + 1) reqType
      else if rpc.probeOk then
        (some rpc, pool)
      else if rpc.hasDisconnect ∧ rpc.connectedAfterReconnect then
        (some rpc, pool)
      else
        getWeb3Go fuel (pool.eraseIdx (pool.indexOf rpc)) (i + 1) reqType
    else (none, pool)

/-- `getWeb3` (lines 123-164): walk the pool; if no handle is returned from
the loop, build a new connection from the endpoint configuration (the
created handle, with `dataType || 'combined'` applied by its builder, is
supplied as `newRpc` since `getProvider`/`CryptoRpc` are not under src),
push it and return it. -/
def getWeb3 (pool : List RpcHandle) (reqType : Option String) (newRpc : RpcHandle) :
    GetW3Result × List RpcHandle :=
  match getWeb3Go (pool.length + 1) pool 0 reqType with
  | (some r, pool') => (.existing r, pool')
  | (none, pool') => (.created newRpc, pool' ++ [newRpc])

/-- Environment for `getWalletBalanceAtTime`: `getWalletAddresses`,
`getBlockNumberByDate` and `getNativeBalanceByBlock` (the latter returning
the external provider's `total_balance`, possibly absent). -/
structure WalletEnv where
  addressesOf : String → List String
  blockByDate : Int → Option Int
  nativeBalance : Option Int → List String → Option Int

/-- `{ unconfirmed, confirmed, balance }` as returned by
`getWalletBalanceAtTime` (its `confirmed`/`balance` are
`result?.total_balance`, possibly `undefined`). -/
structure BalanceResult where
  unconfirmed : Int
  confirmed : Option Int
  balance : Option Int
deriving DecidableEq, Repr

/-- `getWalletBalanceAtTime` (lines 378-393): a missing wallet throws (the
catch rethrows after logging); otherwise the block is resolved from the
time and the result is
`{ unconfirmed: 0, confirmed: result?.total_balance, balance:
result?.total_balance }`. -/
def getWalletBalanceAtTime (env : WalletEnv) (walletId : Option String) (time : Int) :
    Except String BalanceResult :=
  match walletId with
  | none => .error "Missing wallet"
  | some wid =>
    let addresses := env.addressesOf wid
    let block := env.blockByDate time
    let result := env.nativeBalance block addresses
    .ok { unconfirmed := 0, confirmed := result, balance := result }

/-- Projection used to observe the confirmations attached to a possibly
absent transaction record. -/
def txRecordConfirmations (o : Option TxRecord) : Option Int :=
  o.map (fun r => r.confirmations)

def c1Tx : RawTx := ⟨"t", some 0, some "bh", 2, 3, 1, 9, none, none, ""⟩

def c1Env : TxEnv := ⟨fun t => if t = "t" then some c1Tx else none, fun _ => none, fun _ => 7, some 5⟩

def c1Tx2 : RawTx := ⟨"t", some 2, some "bh", 2, 3, 1, 9, none, none, ""⟩

def c1Env2 : TxEnv := ⟨fun t => if t = "t" then some c1Tx2 else none, fun _ => none, fun _ => 7, some 5⟩

def c1Block : RawBlock := ⟨3, none, "h", 0, "p", [], 0, "n", 0, 0, 0, none⟩

def c3Env : FeeEnv := ⟨[0], [[0]], fun _ q => q⟩

def c4Block5 : RawBlock := ⟨5, none, "h5", 100, "p5", [], 0, "n", 0, 0, 0, none⟩

def c4Block6 : RawBlock := ⟨6, none, "h6", 100, "p6", [], 0, "n", 0, 0, 0, none⟩

def c4Params : BRParams := ⟨"ETH", "mainnet", some "5", none,
  ⟨none, none, none, none, none, none, some 1, none⟩⟩

def c4Env : NodeEnv := ⟨fun _ => none, fun _ => none, some 10,
  fun n => if n = 5 then .ok c4Block5 else if n = 6 then .ok c4Block6 else .error "nope"⟩

def c4EnvFail : NodeEnv := ⟨fun _ => none, fun _ => none, some 10,
  fun n => if n = 5 then .ok c4Block5 else .error "boom"⟩

def c5Env : TxEnv := ⟨fun _ => none, fun _ => none, fun _ => 0, some 5⟩

def c9Bad : RpcHandle := ⟨0, "combined", false, false, false⟩

def c9Good : RpcHandle := ⟨1, "combined", true, false, false⟩

def c9New : RpcHandle := ⟨2, "combined", true, false, false⟩

def c10Env : WalletEnv := ⟨fun _ => ["a"], fun _ => some 7, fun _ _ => some 42⟩

def c2Env : NodeEnv := ⟨fun _ => none, fun _ => none, some 50, fun _ => .error "x"⟩

def c2Params : BRParams := ⟨"ETH", "mainnet", some "100", none,
  ⟨none, none, none, none, none, none, none, none⟩⟩

def c2ParamsDesc : BRParams := ⟨"ETH", "mainnet", some "100", none,
  ⟨none, none, none, none, none, none, none, some (.sInt (-1))⟩⟩

def c6Env : NodeEnv := ⟨fun _ => none, fun _ => none, some 50, fun _ => .error "x"⟩

def c6Params : BRParams := ⟨"ETH", "mainnet", some "0", none,
  ⟨none, none, none, none, none, none, none, none⟩⟩

def c7Env : NodeEnv := ⟨fun _ => none, fun _ => none, some 50, fun _ => .error "x"⟩

def c7Params : BRParams := ⟨"ETH", "mainnet", none, some "",
  ⟨none, none, none, none, none, none, none, none⟩⟩

def c7ParamsW : BRParams := ⟨"ETH", "mainnet", some "100", some "7",
  ⟨none, none, none, none, none, none, none, none⟩⟩

def c8Env : NodeEnv := ⟨fun _ => none, fun _ => none, some 50, fun _ => .error "x"⟩

def c8Params : BRParams := ⟨"ETH", "mainnet", none, none,
  ⟨none, none, none, none, none, none, some 0, none⟩⟩

def c8ParamsA : BRParams := ⟨"ETH", "mainnet", some "100", none,
  ⟨none, none, none, none, none, none, some 10, none⟩⟩

def c8ParamsD : BRParams := ⟨"ETH", "mainnet", some "100", none,
  ⟨none, none, none, none, none, none, some 10, some (.sInt (-1))⟩⟩

theorem natToRevDigits_ne_nil (fuel n : Nat) : natToRevDigits (fuel + 1) n ≠ [] := by
  simp only [natToRevDigits]
  split <;> simp

theorem natToStr_ne_empty (n : Nat) : natToStr n ≠ "" := by
  intro h
  have hd : (natToRevDigits (n + 1) n).reverse = ([] : List Char) := congrArg String.data h
  have : natToRevDigits (n + 1) n = [] := by simpa using hd
  exact natToRevDigits_ne_nil n n this

theorem intToStr_ne_empty (n : Int) : intToStr n ≠ "" := by
  unfold intToStr
  split
  · intro h
    exact List.noConfusion (congrArg String.data h)
  · exact natToStr_ne_empty n.toNat

theorem brValidateBlockId_ok_canonical (s : String) (bh : Option String × Option Int)
    (hne : s ≠ "") (hlen : s.length < 64)
    (h : brValidateBlockId (some s) = .ok bh) : isCanonicalInt s := by
  simp only [brValidateBlockId] at h
  rw [if_neg hne, if_neg (by omega : ¬ 64 ≤ s.length)] at h
  split at h
  · simp at h
  · rename_i n hp
    split at h
    · rename_i hc
      exact ⟨n, hc⟩
    · simp at h

theorem brRangeStage_ok_canonical (env : NodeEnv) (blk : Option String) (ht : Option Int)
    (limit sb0 eb0 : Int) (s : String) (r : Int × Int × Option Int)
    (hne : s ≠ "") (h : brRangeStage env (some s) blk ht limit sb0 eb0 = .ok r) :
    isCanonicalInt s := by
  simp only [brRangeStage] at h
  rw [if_neg hne] at h
  split at h
  · simp at h
  · rename_i n hp
    split at h
    · rename_i hc
      exact ⟨n, hc⟩
    · simp at h

theorem brCore_ok_parts (env : NodeEnv) (chain network : String)
    (sinceBlock blockId : Option String) (date startDate endDate : Option Int)
    (limit : Int) (q0 : BRQuery)
    (h : brCore env chain network sinceBlock blockId date startDate endDate limit = .ok q0) :
    (∃ bh, brValidateBlockId blockId = .ok bh)
    ∧ (∃ blk ht sb0 eb0 r, brRangeStage env sinceBlock blk ht limit sb0 eb0 = .ok r
        ∧ q0 = brFinalize env limit blk r) := by
  unfold brCore at h
  split at h
  · simp at h
  · split at h
    · simp at h
    · rename_i blk ht heq
      split at h
      · simp at h
      · rename_i r heq2
        refine ⟨⟨(blk, ht), heq⟩, blk, ht, _, _, r, heq2, ?_⟩
        cases h
        rfl

theorem brClamp_span (limit : Int) (q : Int × Int) (hl : 0 < limit) :
    (brClamp limit q).2 - (brClamp limit q).1 ≤ limit := by
  unfold brClamp
  split
  · dsimp only
    omega
  · omega

theorem brFinalize_span (env : NodeEnv) (limit : Int) (blk : Option String)
    (r : Int × Int × Option Int) (hl : 0 < limit) :
    (brFinalize env limit blk r).endBlock - (brFinalize env limit blk r).startBlock ≤ limit := by
  unfold brFinalize
  exact brClamp_span limit _ hl

theorem getBlocksParams_ok_core (env : NodeEnv) (p : BRParams) (q : BRQuery) (opts : BROptions)
    (h : getBlocksParams env p = .ok (q, opts)) :
    ∃ q0, brCore env p.chain p.network p.sinceBlock p.blockId p.args.date p.args.startDate
        p.args.endDate (p.args.limit.getD 10) = .ok q0
      ∧ q = (if p.args.sort.getD (SortArg.sHeight (-1)) = SortArg.sInt (-1) then brSwap q0 else q0) := by
  simp only [getBlocksParams] at h
  cases hc : brCore env p.chain p.network p.sinceBlock p.blockId p.args.date p.args.startDate
      p.args.endDate (p.args.limit.getD 10) with
  | error e => rw [hc] at h; simp [Except.map] at h
  | ok q0 =>
    rw [hc] at h
    simp only [Except.map] at h
    rw [Except.ok.injEq, Prod.mk.injEq] at h
    exact ⟨q0, rfl, h.1.symm⟩

/-- C1 (counterexample): a transaction whose `blockNumber` is `0` with tip
height `5` satisfies `t ≥ h ≥ 0`, yet `_getTransaction` attaches
confirmations `0`, not `t - h + 1 = 6`, because `if (tx.blockNumber &&
tx.blockNumber >= 0)` treats the height `0` as falsy. -/
theorem C1_counterexample :
    txRecordConfirmations (getTransactionRecord c1Env "ETH" "mainnet" "t" 5) = some 0
    ∧ (some (0 : Int) : Option Int) ≠ some (5 - 0 + 1) := by
  refine ⟨by decide, by decide⟩

/-- C1 (amended): `getBlocks`' `blockTransform` attaches
`confirmations = t - h + 1` for every raw block with height `h ≥ 0` — with
no guard against `h` exceeding the tip — while `_getTransaction` attaches
`t - h + 1` only for `h ≥ 1` and attaches `0` for a transaction at height
`0`. -/
theorem C1_amended_thm (chain network : String) (t : Int) (b : RawBlock)
    (hb : b.height = none) (h0 : 0 ≤ b.number) (env : TxEnv) (txId : String)
    (tx : RawTx) (htx : env.getTx txId = some tx) :
    (blockTransform chain network t b).confirmations = t - b.number + 1
    ∧ (∀ n : Int, tx.blockNumber = some n → 1 ≤ n →
        txRecordConfirmations (getTransactionRecord env chain network txId t) = some (t - n + 1))
    ∧ (tx.blockNumber = some 0 →
        txRecordConfirmations (getTransactionRecord env chain network txId t) = some 0) := by
  refine ⟨?_, ?_, ?_⟩
  · simp only [blockTransform, hb, jsOrOptInt, jsOrInt]
    rcases eq_or_ne b.number 0 with hz | hz
    · simp [hz]
    · rw [if_neg hz, if_pos h0]
  · intro n hn h1
    simp only [txRecordConfirmations, getTransactionRecord, htx, txConfirmations, hn]
    rw [if_pos ⟨by omega, by omega⟩]
    rfl
  · intro hn
    simp only [txRecordConfirmations, getTransactionRecord, htx, txConfirmations, hn]
    rw [if_neg (by simp)]
    rfl

/-- C1 (witness): the amended theorem at tip `5`, a block of height `3` and a
transaction at height `2`. -/
theorem C1_witness :
    (blockTransform "ETH" "mainnet" 5 c1Block).confirmations = 5 - c1Block.number + 1
    ∧ txRecordConfirmations (getTransactionRecord c1Env2 "ETH" "mainnet" "t" 5) = some (5 - 2 + 1) :=
  ⟨(C1_amended_thm "ETH" "mainnet" 5 c1Block rfl (by decide) c1Env2 "t" c1Tx2 rfl).1,
   (C1_amended_thm "ETH" "mainnet" 5 c1Block rfl (by decide) c1Env2 "t" c1Tx2 rfl).2.1 2 rfl
     (by decide)⟩

/-- C3 (counterexample): with `targetBlocks` missing the code selects
quartile `Math.min(4, 4) || 1 = 4` (observed through a quartile oracle that
reports its position argument), while the claim says a missing value
defaults to quartile 1. -/
theorem C3_counterexample :
    getFee c3Env none = ⟨4, 4⟩ ∧ getFeeWhichQuartile none = 4
    ∧ specTargetQuartile none = 1 ∧ (4 : Int) ≠ 1 := by
  refine ⟨rfl, by decide, by decide, by decide⟩

/-- C3 (amended): the quartile position is `Math.min(target, 4) || 1`: a
target in `[1,4]` is used as-is, a target above `4` clamps to `4`, a target
of `0` defaults to `1`, a negative target passes through unchanged, and a
missing target defaults to `4` (not `1`); `getFee` passes exactly this
position to the quartile selection. -/
theorem C3_amended_thm (env : FeeEnv) (n : Int) :
    getFeeWhichQuartile none = 4
    ∧ (1 ≤ n → n ≤ 4 → getFeeWhichQuartile (some n) = n)
    ∧ (4 < n → getFeeWhichQuartile (some n) = 4)
    ∧ getFeeWhichQuartile (some 0) = 1
    ∧ (n < 0 → getFeeWhichQuartile (some n) = n)
    ∧ (getFee env (some n)).feerate
        = env.nthQuartileMedian (sortDesc (feeGasPrices env)) (getFeeWhichQuartile (some n)) := by
  refine ⟨by decide, ?_, ?_, by decide, ?_, rfl⟩
  · intro h1 h2
    simp only [getFeeWhichQuartile, jsOrInt, Option.getD_some]
    split <;> omega
  · intro h4
    simp only [getFeeWhichQuartile, jsOrInt, Option.getD_some]
    split <;> omega
  · intro hneg
    simp only [getFeeWhichQuartile, jsOrInt, Option.getD_some]
    split <;> omega

/-- C3 (witness): the amended theorem at targets `3`, `7` and `-2`. -/
theorem C3_witness :
    getFeeWhichQuartile (some 3) = 3 ∧ getFeeWhichQuartile (some 7) = 4
    ∧ getFeeWhichQuartile (some (-2)) = -2 :=
  ⟨(C3_amended_thm c3Env 3).2.1 (by decide) (by decide),
   (C3_amended_thm c3Env 7).2.2.1 (by decide),
   (C3_amended_thm c3Env (-2)).2.2.2.2.1 (by decide)⟩

/-- C4 (code bug, evidence): on the range `[5, 6]` with both blocks
fetchable, `getBlocks` resolves with the RAW blocks — the transformed
records (with confirmations) are computed and discarded because `.then` is
handed an array instead of a callback — and when fetching block `6` fails,
`.catch(error => error)` resolves successfully with the error value instead
of reporting a failure. -/
theorem C4_code_divergence :
    getBlocks c4Env c4Params = .value [.raw c4Block5, .raw c4Block6]
    ∧ getBlocks c4EnvFail c4Params = .errorValue "boom"
    ∧ BlockRecordV.raw c4Block5
        ≠ .canonical (blockTransform "ETH" "mainnet" 10 c4Block5) := by
  refine ⟨by decide, by decide, by decide⟩

/-- C5 (counterexample): with `chain` missing, the validation error is
thrown before any network call but is caught inside `getTransaction`, which
returns `undefined` to its caller — the caller never sees a raised error,
contrary to the claim. -/
theorem C5_counterexample :
    getTransaction c5Env "" "mainnet" (some "abc") = .returns none
    ∧ getTransactionInner c5Env "" "mainnet" (some "abc") = .error "Missing required param"
    ∧ (JsCall.returns (none : Option TxRecord)) ≠ .throws "Missing required param" := by
  refine ⟨rfl, rfl, by decide⟩

/-- C5 (amended): `getTransaction` validates `txId`/`chain`/`network` before
any network access (the failing result does not depend on the environment),
but the thrown error is caught internally and `undefined` is returned; a
non-existent transaction likewise yields `undefined`, and no call ever
throws to the caller. -/
theorem C5_amended_thm (env env2 : TxEnv) (chain network : String) (txId : Option String) :
    ((txId = none ∨ chain = "" ∨ network = "") →
      getTransaction env chain network txId = .returns none
      ∧ getTransactionInner env chain network txId = getTransactionInner env2 chain network txId)
    ∧ (∀ t, txId = some t → env.getTx t = none →
        getTransaction env chain network txId = .returns none)
    ∧ (∀ e, getTransaction env chain network txId ≠ .throws e) := by
  refine ⟨?_, ?_, ?_⟩
  · intro hv
    have hcond : (txId.isNone ∨ chain = "" ∨ network = "") := by
      rcases hv with h | h | h
      · left; rw [h]; rfl
      · right; left; exact h
      · right; right; exact h
    have hin : getTransactionInner env chain network txId = .error "Missing required param" := by
      unfold getTransactionInner
      rw [if_pos hcond]
    have hin2 : getTransactionInner env2 chain network txId = .error "Missing required param" := by
      unfold getTransactionInner
      rw [if_pos hcond]
    refine ⟨?_, by rw [hin, hin2]⟩
    unfold getTransaction
    rw [hin]
  · intro t ht hnone
    subst ht
    unfold getTransaction
    by_cases hc : ((some t : Option String).isNone ∨ chain = "" ∨ network = "")
    · unfold getTransactionInner
      rw [if_pos hc]
    · unfold getTransactionInner
      rw [if_neg hc]
      simp only [getTransactionRecord, hnone]
  · intro e
    unfold getTransaction
    cases hin : getTransactionInner env chain network txId <;> simp

/-- C5 (witness): the amended theorem at a missing chain and at a
non-existent transaction. -/
theorem C5_witness :
    getTransaction c5Env "" "mainnet" (some "t") = .returns none
    ∧ getTransaction c5Env "ETH" "mainnet" (some "t") = .returns none :=
  ⟨((C5_amended_thm c5Env c5Env "" "mainnet" (some "t")).1 (Or.inr (Or.inl rfl))).1,
   (C5_amended_thm c5Env c5Env "ETH" "mainnet" (some "t")).2.1 "t" rfl rfl⟩

/-- C9 (code bug, evidence): with a pool holding an unresponsive handle
(probe fails, no reconnect) followed by a healthy one, `getWeb3` removes the
unresponsive handle and then — because `splice` during `for...of` iteration
shifts the array under the index-based iterator — SKIPS the healthy handle
and creates a brand-new connection instead of returning it; the healthy
handle is returned only when it is actually reached, as the singleton pool
shows. -/
theorem C9_code_divergence :
    getWeb3 [c9Bad, c9Good] none c9New = (.created c9New, [c9Good, c9New])
    ∧ (GetW3Result.created c9New) ≠ .existing c9Good
    ∧ getWeb3 [c9Good] none c9New = (.existing c9Good, [c9Good]) := by
  refine ⟨by decide, by decide, by decide⟩

/-- C10: every successful `getWalletBalanceAtTime` call returns
`unconfirmed = 0` and `confirmed = balance`, both being the provider's
`total_balance` at the block resolved from the given time. -/
theorem C10_thm (env : WalletEnv) (wid : String) (time : Int) (r : BalanceResult)
    (hok : getWalletBalanceAtTime env (some wid) time = .ok r) :
    r.unconfirmed = 0 ∧ r.confirmed = r.balance
    ∧ r.balance = env.nativeBalance (env.blockByDate time) (env.addressesOf wid) := by
  unfold getWalletBalanceAtTime at hok
  injection hok with h
  subst h
  exact ⟨rfl, rfl, rfl⟩

/-- C10 (witness): the theorem at a concrete environment resolving time `3`
to block `7` with total balance `42`. -/
theorem C10_witness :
    (BalanceResult.mk 0 (some 42) (some 42)).unconfirmed = 0
    ∧ (BalanceResult.mk 0 (some 42) (some 42)).confirmed
        = (BalanceResult.mk 0 (some 42) (some 42)).balance
    ∧ (BalanceResult.mk 0 (some 42) (some 42)).balance
        = c10Env.nativeBalance (c10Env.blockByDate 3) (c10Env.addressesOf "w") :=
  C10_thm c10Env "w" 3 ⟨0, some 42, some 42⟩ rfl

/-- C2 (counterexample): under the DEFAULT sort — the object `{height: -1}`,
i.e. descending by height — the code's `sort === -1` comparison is false (an
object is not the number `-1`), so the pair is NOT swapped: a since cursor
of 100 resolves to `(100, 110)` with `startBlock < endBlock`, contradicting
the claimed swap and `startBlock > endBlock`. -/
theorem C2_counterexample :
    getBlocksParams c2Env c2Params
      = .ok (⟨100, 110, none, none⟩, ⟨10, .sHeight (-1), none, none, none⟩)
    ∧ (100 : Int) < 110 := by
  refine ⟨by rfl, by decide⟩

/-- C2 (amended): only an `args.sort` that is literally the number `-1`
triggers the swap (the default object `{height: -1}` does not); for two
otherwise-identical resolutions, the `sort = -1` result is the
default-sort result with its bounds swapped, and it has
`startBlock > endBlock` whenever the unswapped range was strictly
increasing. -/
theorem C2_amended_thm (env : NodeEnv) (p : BRParams) (q qa : BRQuery) (opts optsa : BROptions)
    (hs : p.args.sort = some (SortArg.sInt (-1)))
    (hok : getBlocksParams env p = .ok (q, opts))
    (hasc : getBlocksParams env { p with args := { p.args with sort := none } } = .ok (qa, optsa)) :
    q = brSwap qa ∧ (qa.startBlock < qa.endBlock → q.endBlock < q.startBlock) := by
  obtain ⟨q0, hc0, hq⟩ := getBlocksParams_ok_core env p q opts hok
  obtain ⟨qa0, hca, hqa⟩ := getBlocksParams_ok_core env _ qa optsa hasc
  dsimp only at hca hqa
  rw [hc0] at hca
  injection hca with hsame
  rw [hs] at hq
  simp only [Option.getD_some, if_pos rfl] at hq
  simp only [Option.getD_none] at hqa
  rw [if_neg (by decide)] at hqa
  subst hsame
  subst hqa
  subst hq
  refine ⟨rfl, ?_⟩
  intro hlt
  simp only [brSwap]
  exact hlt

/-- C2 (witness): the amended theorem on the since-100 resolution, where the
`sort = -1` call yields `(110, 100)`, the swap of the default-sort
`(100, 110)`. -/
theorem C2_witness :
    (⟨110, 100, none, none⟩ : BRQuery) = brSwap ⟨100, 110, none, none⟩
    ∧ (⟨110, 100, none, none⟩ : BRQuery).endBlock < (⟨110, 100, none, none⟩ : BRQuery).startBlock :=
  ⟨(C2_amended_thm c2Env c2ParamsDesc ⟨110, 100, none, none⟩ ⟨100, 110, none, none⟩
      ⟨10, .sInt (-1), none, none, none⟩ ⟨10, .sHeight (-1), none, none, none⟩ rfl rfl rfl).1,
   (C2_amended_thm c2Env c2ParamsDesc ⟨110, 100, none, none⟩ ⟨100, 110, none, none⟩
      ⟨10, .sInt (-1), none, none, none⟩ ⟨10, .sHeight (-1), none, none, none⟩ rfl rfl rfl).2
     (by decide)⟩

/-- C6 (counterexample): a since cursor of `"0"` (S = 0) with the default
limit 10 should, per the claim, resolve to `(0, 10)`; but `startBlock = 0`
is falsy for `!query.startBlock`, so it is re-defaulted to `endBlock - 1`,
yielding `(9, 10)` with `startBlock = 9 ≠ S`. -/
theorem C6_counterexample :
    getBlocksParams c6Env c6Params
      = .ok (⟨9, 10, none, none⟩, ⟨10, .sHeight (-1), none, none, none⟩)
    ∧ (9 : Int) ≠ 0 := by
  refine ⟨by rfl, by decide⟩

/-- C6 (amended): with no block id and no date arguments, a since cursor
that parses canonically to `S` with limit `L` resolves — before any
descending swap — to `startBlock = S` and `endBlock = S + L`, provided
neither bound is the falsy `0` (`S ≠ 0` and `S + L ≠ 0`); a zero bound is
instead re-defaulted from the tip. -/
theorem C6_amended_thm (env : NodeEnv) (chain network s : String) (S L : Int)
    (hc : chain ≠ "") (hn : network ≠ "") (hnum : numberJS s = some S)
    (hcanon : intToStr S = s) (hS : S ≠ 0) (hSL : S + L ≠ 0) :
    brCore env chain network (some s) none none none none L = .ok ⟨S, S + L, none, none⟩ := by
  have hse : s ≠ "" := by rw [← hcanon]; exact intToStr_ne_empty S
  have hrange : brRangeStage env (some s) none none L (brDateBounds env none none none).1
      (brDateBounds env none none none).2 = .ok (S, S + L, none) := by
    simp only [brRangeStage]
    rw [if_neg hse, hnum]
    simp only
    rw [if_pos hcanon]
  unfold brCore
  rw [if_neg (by simp [hc, hn])]
  simp only [brValidateBlockId]
  rw [hrange]
  simp only [brFinalize, brHeightStep, brDefaultStep, brClamp]
  rw [if_neg (by simp [hS, hSL] : ¬((S, S + L).1 = 0 ∨ (S, S + L).2 = 0))]
  rw [if_neg (by omega : ¬(0 < L ∧ L < (S, S + L).2 - (S, S + L).1))]

/-- C6 (witness): the amended theorem at cursor `"100"` with limit 10. -/
theorem C6_witness :
    brCore c6Env "ETH" "mainnet" (some "100") none none none none 10
      = .ok ⟨100, 110, none, none⟩ :=
  C6_amended_thm c6Env "ETH" "mainnet" "100" 100 10 (by decide) (by decide) (by decide)
    (by decide) (by decide) (by decide)

/-- C7 (counterexample): the empty-string identifier is shorter than 64
characters and is not the canonical decimal reprint of any number, yet
`getBlocksParams` does not reject it — `if (blockId)` treats it as absent
and the resolution succeeds with the default tip-based range. -/
theorem C7_counterexample :
    getBlocksParams c7Env c7Params
      = .ok (⟨49, 50, none, none⟩, ⟨10, .sHeight (-1), none, none, none⟩)
    ∧ String.length "" < 64
    ∧ ¬ isCanonicalInt "" := by
  refine ⟨by rfl, by decide, ?_⟩
  rintro ⟨n, hn⟩
  exact intToStr_ne_empty n hn

/-- C7 (amended): every NONEMPTY block identifier shorter than 64 characters
that `getBlocksParams` accepts is the canonical decimal reprint of a number
— equivalently, every nonempty non-canonical short identifier is rejected
with a validation error — and the same canonical-reprint acceptance applies
to a nonempty `sinceBlock` cursor; the empty string is instead treated as an
absent argument. -/
theorem C7_amended_thm (env : NodeEnv) (p : BRParams) (q : BRQuery) (opts : BROptions)
    (hok : getBlocksParams env p = .ok (q, opts)) :
    (∀ s, p.blockId = some s → s ≠ "" → s.length < 64 → isCanonicalInt s)
    ∧ (∀ s, p.sinceBlock = some s → s ≠ "" → isCanonicalInt s) := by
  obtain ⟨q0, hc0, -⟩ := getBlocksParams_ok_core env p q opts hok
  obtain ⟨⟨bh, hbh⟩, blk, ht, sb0, eb0, r, hr, -⟩ :=
    brCore_ok_parts env p.chain p.network p.sinceBlock p.blockId p.args.date p.args.startDate
      p.args.endDate (p.args.limit.getD 10) q0 hc0
  refine ⟨?_, ?_⟩
  · intro s hbid hne hlen
    rw [hbid] at hbh
    exact brValidateBlockId_ok_canonical s bh hne hlen hbh
  · intro s hsb hne
    rw [hsb] at hr
    exact brRangeStage_ok_canonical env blk ht (p.args.limit.getD 10) sb0 eb0 s r hne hr

/-- C7 (witness): a resolution that accepts block id `"7"` and since cursor
`"100"`, both canonical reprints. -/
theorem C7_witness : isCanonicalInt "7" ∧ isCanonicalInt "100" :=
  ⟨(C7_amended_thm c7Env c7ParamsW ⟨7, 7, none, some 7⟩ ⟨10, .sHeight (-1), none, none, none⟩
      rfl).1 "7" rfl (by decide) (by decide),
   (C7_amended_thm c7Env c7ParamsW ⟨7, 7, none, some 7⟩ ⟨10, .sHeight (-1), none, none, none⟩
      rfl).2 "100" rfl (by decide)⟩

/-- C8 (counterexample): with the supplied limit `0` the clamp
`if (limit > 0 && ...)` is disabled, and the default tip range `(49, 50)`
has `endBlock - startBlock = 1 > 0 = limit`, contradicting the claim for
non-positive supplied limits. -/
theorem C8_counterexample :
    getBlocksParams c8Env c8Params
      = .ok (⟨49, 50, none, none⟩, ⟨0, .sHeight (-1), none, none, none⟩)
    ∧ ¬((50 : Int) - 49 ≤ 0) := by
  refine ⟨by rfl, by decide⟩

/-- C8 (amended): when a POSITIVE limit is supplied, the resolved span in
iteration orientation is at most the limit: `endBlock - startBlock ≤ limit`
when the descending swap was not applied (`sort` not the number `-1`), and
`startBlock - endBlock ≤ limit` when it was; a non-positive supplied limit
disables the clamp entirely. -/
theorem C8_amended_thm (env : NodeEnv) (p : BRParams) (L : Int) (q : BRQuery) (opts : BROptions)
    (hlim : p.args.limit = some L) (hpos : 0 < L)
    (hok : getBlocksParams env p = .ok (q, opts)) :
    (p.args.sort = some (SortArg.sInt (-1)) → q.startBlock - q.endBlock ≤ L)
    ∧ (p.args.sort ≠ some (SortArg.sInt (-1)) → q.endBlock - q.startBlock ≤ L) := by
  obtain ⟨q0, hc0, hq⟩ := getBlocksParams_ok_core env p q opts hok
  rw [hlim] at hc0
  simp only [Option.getD_some] at hc0
  obtain ⟨-, blk, ht, sb0, eb0, r, hr, hq0⟩ :=
    brCore_ok_parts env p.chain p.network p.sinceBlock p.blockId p.args.date p.args.startDate
      p.args.endDate L q0 hc0
  have span : q0.endBlock - q0.startBlock ≤ L := by
    rw [hq0]
    exact brFinalize_span env L blk r hpos
  constructor
  · intro hs
    rw [hs] at hq
    simp only [Option.getD_some, if_true] at hq
    rw [hq]
    simp only [brSwap]
    omega
  · intro hns
    have hng : p.args.sort.getD (SortArg.sHeight (-1)) ≠ SortArg.sInt (-1) := by
      cases hcs : p.args.sort with
      | none => simp [Option.getD]
      | some x =>
        simp only [Option.getD_some]
        intro hx
        exact hns (by rw [hcs, hx])
    rw [if_neg hng] at hq
    rw [hq]
    exact span

/-- C8 (witness): the amended theorem on the since-100 limit-10 resolutions,
ascending and descending. -/
theorem C8_witness :
    (110 : Int) - 100 ≤ 10 ∧ (110 : Int) - 100 ≤ 10 :=
  ⟨(C8_amended_thm c8Env c8ParamsD 10 ⟨110, 100, none, none⟩ ⟨10, .sInt (-1), none, none, none⟩
      rfl (by decide) rfl).1 rfl,
   (C8_amended_thm c8Env c8ParamsA 10 ⟨100, 110, none, none⟩ ⟨10, .sHeight (-1), none, none, none⟩
      rfl (by decide) rfl).2 (by decide)⟩
